import Mathlib

/-!
Verification of the levelup-web3 repository: a shallow embedding of
`src/constants/layout.ts` and of the `WalletDropdown` component in
`src/components/WalletToolkit/WalletDropdown.tsx`, with theorems about
its UI state machine, its rendering, and its external effects.
-/

namespace LevelupWeb3

/-! ### Layout constants, from src/constants/layout.ts -/

def LAYOUT_HEADER_HEIGHT : String := "75px"

def MOBILE_LAYOUT_HEADER_HEIGHT : String := "64px"

def LAYOUT_FOOTER_HEIGHT : String := "143px"

def MOBILE_LAYOUT_FOOTER_HEIGHT : String := "132.5px"

/-- Translation of the template literal
one hundred vh minus header minus footer (desktop). -/
def FULL_SCREEN_HEIGHT : String :=
  "calc(100vh - " ++ LAYOUT_HEADER_HEIGHT ++ " - " ++ LAYOUT_FOOTER_HEIGHT ++ ")"

/-- Translation of the mobile template literal. -/
def MOBILE_FULL_SCREEN_HEIGHT : String :=
  "calc(100vh - " ++ MOBILE_LAYOUT_HEADER_HEIGHT ++ " - " ++ MOBILE_LAYOUT_FOOTER_HEIGHT ++ ")"

def PAGE_MIN_HEIGHT : List String :=
  [MOBILE_FULL_SCREEN_HEIGHT, MOBILE_FULL_SCREEN_HEIGHT]

/-! ### The wallet-context collaborator, read by WalletDropdown

The component destructures walletCurrentAddress, connect, disconnect and
chainId from the external useRainbowContext hook.  The address may be
null or undefined (the source casts it with `as string`), so it is an
`Option String`; chainId is a JS number or undefined, an `Option Int`.
The connect and disconnect callbacks are represented as emitted effects. -/

structure WalletContext where
  walletCurrentAddress : Option String
  chainId : Option Int
deriving DecidableEq, Repr

/-- JavaScript truthiness of a possibly-undefined number, as used by the
conditional renders `chainId ? ... : ...` and `Boolean(anchorEl)`. -/
def jsTruthy : Option Int → Bool
  | none => false
  | some n => n != 0

/-! ### Constants imported from `@/constants`

CHAIN_ID and EXPLORER_URL come from `@/constants`, whose source is not in
the provided files; only the selection between the L1 and L2 entries is
in WalletDropdown.  They are kept abstract as a parameter record. -/

structure Consts where
  chainIdL1 : Int
  explorerL1 : String
  explorerL2 : String
deriving DecidableEq, Repr

/-- Modelled from the spec: the repository consumes "a URL-generation
utility for block-explorer links" (`generateExploreLink` from `@/utils`,
whose source is not provided).  It is represented by the triple of
arguments the component passes to it. -/
structure ExploreLink where
  baseUrl : String
  addr : Option String
  kind : String
deriving DecidableEq, Repr

def generateExploreLink (base : String) (a : Option String) (k : String) : ExploreLink :=
  ⟨base, a, k⟩

/-! ### Local UI state and effects -/

/-- The two useState fields of WalletDropdown: `anchorEl` (an HTML
element, modelled by an identifier) and the `copied` flag. -/
structure UIState where
  anchorEl : Option Nat
  copied : Bool
deriving DecidableEq, Repr

/-- Initial state: useState(null), useState(false). -/
def initialUI : UIState := ⟨none, false⟩

/-- The derived `open` value: `Boolean(anchorEl)`. -/
def openFlag (s : UIState) : Bool := s.anchorEl.isSome

/-- The calls WalletDropdown makes into the outside world: window.open,
the copy-to-clipboard library, and the wallet context's connect and
disconnect callbacks. -/
inductive Effect where
  | windowOpen (link : ExploreLink)
  | copyToClipboard (a : Option String)
  | callConnect
  | callDisconnect
deriving DecidableEq, Repr

/-- Which effects write the wallet session state (only the wallet
collaborator's own callbacks can). -/
def writesWallet : Effect → Bool
  | Effect.callConnect => true
  | Effect.callDisconnect => true
  | _ => false

/-- Result of each delegated external call (window.open returns a window
or null, copy returns a boolean, ...).  The source discards every such
result, which the embedding mirrors by threading this oracle through the
handlers and never using its answers. -/
def OutcomeEnv : Type := Effect → Bool

def trueEnv : OutcomeEnv := fun _ => true

/-! ### Event handlers, translated from the component body -/

/-- handleClick: setAnchorEl(e.currentTarget). -/
def handleClick (s : UIState) (currentTarget : Nat) : UIState :=
  { s with anchorEl := some currentTarget }

/-- handleClose: setAnchorEl(null); setCopied(false). -/
def handleClose (_s : UIState) : UIState :=
  { anchorEl := none, copied := false }

/-- The argument viewScan builds for window.open: the L1 explorer URL
when chainId strictly equals CHAIN_ID.L1, the L2 one otherwise, with the
current address and the "address" kind. -/
def viewScanLink (c : Consts) (ctx : WalletContext) : ExploreLink :=
  generateExploreLink
    (if ctx.chainId = some c.chainIdL1 then c.explorerL1 else c.explorerL2)
    ctx.walletCurrentAddress "address"

/-- viewScan: window.open(generateExploreLink(...)); no local state
change, the window.open result is discarded. -/
def viewScan (c : Consts) (env : OutcomeEnv) (ctx : WalletContext) (s : UIState) :
    UIState × List Effect :=
  let _openedWindow := env (Effect.windowOpen (viewScanLink c ctx))
  (s, [Effect.windowOpen (viewScanLink c ctx)])

/-- copyAddress: copy(walletCurrentAddress as string); setCopied(true);
the boolean returned by copy is discarded. -/
def copyAddress (env : OutcomeEnv) (ctx : WalletContext) (s : UIState) :
    UIState × List Effect :=
  let _copyResult := env (Effect.copyToClipboard ctx.walletCurrentAddress)
  ({ s with copied := true }, [Effect.copyToClipboard ctx.walletCurrentAddress])

/-- Identifier for the onClick closure of each entry of `operations`. -/
inductive ActionId where
  | viewScanAct
  | copyAddressAct
  | disconnectAct
deriving DecidableEq, Repr

/-- The icon components imported at the top of the file. -/
inductive Icon where
  | blockSvg
  | copySvg
  | copySuccessSvg
  | disconnectSvg
  | downTriangleSvg
deriving DecidableEq, Repr

/-- One entry of the `operations` useMemo array. -/
structure Operation where
  icon : Icon
  label : String
  action : ActionId
deriving DecidableEq, Repr

/-- The `operations` array: three entries whose labels and order are
literals; only the middle icon depends on the copied flag. -/
def operations (copiedFlag : Bool) : List Operation :=
  [ ⟨Icon.blockSvg, "Block explorer", ActionId.viewScanAct⟩,
    ⟨if copiedFlag then Icon.copySuccessSvg else Icon.copySvg,
      "Copy address", ActionId.copyAddressAct⟩,
    ⟨Icon.disconnectSvg, "Disconnect", ActionId.disconnectAct⟩ ]

/-- Dispatch of a menu entry's onClick: viewScan, copyAddress, or the
inline arrow that calls disconnect() and then handleClose(). -/
def runAction (c : Consts) (env : OutcomeEnv) (ctx : WalletContext) (s : UIState) :
    ActionId → UIState × List Effect
  | ActionId.viewScanAct => viewScan c env ctx s
  | ActionId.copyAddressAct => copyAddress env ctx s
  | ActionId.disconnectAct =>
      let _r := env Effect.callDisconnect
      (handleClose s, [Effect.callDisconnect])

/-! ### The event-level step function

Events reach a handler only through a rendered element: the trigger
button exists only when chainId is truthy, the Connect Wallet button
only when it is falsy, the Menu fires onClose only while open, and a
MenuItem's onClick only while the Menu is open (the Menu is not kept
mounted when closed).  Where no handler is attached the state is
unchanged and nothing is emitted. -/

inductive Event where
  | clickTrigger (currentTarget : Nat)
  | clickConnect
  | menuClose
  | menuItemClick (i : Nat)
deriving DecidableEq, Repr

def uiStep (c : Consts) (env : OutcomeEnv) (ctx : WalletContext) (s : UIState) :
    Event → UIState × List Effect
  | Event.clickTrigger t =>
      if jsTruthy ctx.chainId then (handleClick s t, []) else (s, [])
  | Event.clickConnect =>
      if jsTruthy ctx.chainId then (s, [])
      else
        let _r := env Effect.callConnect
        (s, [Effect.callConnect])
  | Event.menuClose =>
      if openFlag s then (handleClose s, []) else (s, [])
  | Event.menuItemClick i =>
      if openFlag s then
        match (operations s.copied)[i]? with
        | some op => runAction c env ctx s op.action
        | none => (s, [])
      else (s, [])

/-- The whole world seen by one render cycle: the external wallet state
and the component's local state.  The component owns no setter for the
wallet part, so a step carries it through unchanged; any wallet change
happens in the collaborator, in reaction to the emitted effects. -/
structure World where
  ctx : WalletContext
  ui : UIState
deriving DecidableEq, Repr

def worldStep (c : Consts) (env : OutcomeEnv) (w : World) (e : Event) :
    World × List Effect :=
  let r := uiStep c env w.ctx w.ui e
  ({ ctx := w.ctx, ui := r.1 }, r.2)

/-- UI states reachable from the initial render under any sequence of
events, wallet contexts and external outcomes. -/
inductive ReachableUI : UIState → Prop where
  | init : ReachableUI initialUI
  | step (c : Consts) (env : OutcomeEnv) (ctx : WalletContext) (s : UIState)
      (e : Event) : ReachableUI s → ReachableUI (uiStep c env ctx s e).1

/-! ### Rendering, translated from the returned JSX -/

/-- The theme values read by useStyles (external MUI theme). -/
structure Theme where
  contrastText : String
  themeBackgroundNormal : String
  textPrimary : String
deriving DecidableEq, Repr

/-- The props WalletDropdown accepts. -/
structure Props where
  sx : String
  dark : Bool
deriving DecidableEq, Repr

/-- The dark-dependent style fields produced by useStyles. -/
structure Classes where
  buttonBorder : Option String
  buttonBackgroundColor : String
  buttonColor : String
  endIconColor : String
  paperBorder : Option String
  paperBackgroundColor : String
  listItemIconColor : String
  listItemTextColor : String
deriving DecidableEq, Repr

def useStyles (theme : Theme) (dark : Bool) : Classes :=
  { buttonBorder := if dark then some ("1px solid " ++ theme.contrastText) else none
    buttonBackgroundColor := if dark then "unset" else theme.themeBackgroundNormal
    buttonColor := if dark then theme.contrastText else "#473835"
    endIconColor := if dark then theme.contrastText else "#473835"
    paperBorder := if dark then some ("1px solid " ++ theme.contrastText) else none
    paperBackgroundColor := if dark then theme.textPrimary else theme.themeBackgroundNormal
    listItemIconColor := if dark then theme.contrastText else "#473835"
    listItemTextColor := if dark then theme.contrastText else "#473835" }

/-- The trigger area of the JSX: the ButtonBase showing the truncated
address (it records the raw address handed to truncateAddress, the sx
override, the classes and whether the end icon is reversed), or the
Connect Wallet button whose onClick is the context's connect. -/
inductive TriggerNode where
  | addressButton (rawAddress : Option String) (sx : String)
      (classes : Classes) (endIconReversed : Bool)
  | connectButton (label : String)
deriving DecidableEq, Repr

/-- The rendered Menu: its open prop, its anchorEl prop, and its mapped
MenuItem children. -/
structure MenuNode where
  isOpen : Bool
  anchorEl : Option Nat
  items : List Operation
deriving DecidableEq, Repr

structure RenderedView where
  trigger : TriggerNode
  menus : List MenuNode
deriving DecidableEq, Repr

/-- The JSX returned by WalletDropdown: the chainId-conditional trigger,
then exactly one Menu element. -/
def render (theme : Theme) (p : Props) (ctx : WalletContext) (s : UIState) :
    RenderedView :=
  let classes := useStyles theme p.dark
  { trigger :=
      if jsTruthy ctx.chainId then
        TriggerNode.addressButton ctx.walletCurrentAddress p.sx classes (openFlag s)
      else
        TriggerNode.connectButton "Connect Wallet"
    menus := [ { isOpen := openFlag s, anchorEl := s.anchorEl
                 items := operations s.copied } ] }

/-- The handlers as defined inside the component body, where the props
are in scope: the step function of a component instantiated with the
given theme and props. -/
def componentStep (_theme : Theme) (_p : Props) (c : Consts) (env : OutcomeEnv)
    (ctx : WalletContext) (s : UIState) (e : Event) : UIState × List Effect :=
  uiStep c env ctx s e

/-- Content of the trigger with the presentational fields stripped. -/
def triggerContent : TriggerNode → Option String ⊕ String
  | TriggerNode.addressButton a _ _ _ => Sum.inl a
  | TriggerNode.connectButton l => Sum.inr l

/-! ### Helper lemmas -/

/-- One step preserves the closed-implies-not-copied invariant. -/
theorem uiStep_closed_copied (c : Consts) (env : OutcomeEnv) (ctx : WalletContext)
    (s : UIState) (e : Event)
    (ih : s.anchorEl = none → s.copied = false) :
    (uiStep c env ctx s e).1.anchorEl = none → (uiStep c env ctx s e).1.copied = false := by
  cases e with
  | clickTrigger t =>
      simp only [uiStep]
      by_cases h : jsTruthy ctx.chainId <;> simp [h, handleClick]
      exact ih
  | clickConnect =>
      simp only [uiStep]
      by_cases h : jsTruthy ctx.chainId <;> simp [h] <;> exact ih
  | menuClose =>
      simp only [uiStep]
      by_cases h : openFlag s <;> simp [h, handleClose]
      exact ih
  | menuItemClick i =>
      simp only [uiStep]
      by_cases h : openFlag s <;> simp [h]
      · rcases hIdx : (operations s.copied)[i]? with _ | op <;> simp [hIdx]
        · exact ih
        · rcases op with ⟨ic, lb, a⟩
          cases a with
          | viewScanAct =>
              simp [runAction, viewScan]
              exact ih
          | copyAddressAct =>
              simp [runAction, copyAddress]
              intro hNone
              simp [openFlag, hNone] at h
          | disconnectAct =>
              simp [runAction, handleClose]
      · exact ih

/-- The discarded outcome oracle never influences an action handler. -/
theorem runAction_env_blind (c : Consts) (env1 env2 : OutcomeEnv)
    (ctx : WalletContext) (s : UIState) (a : ActionId) :
    runAction c env1 ctx s a = runAction c env2 ctx s a := by
  cases a <;> rfl

/-- The discarded outcome oracle never influences the event step. -/
theorem uiStep_env_blind (c : Consts) (env1 env2 : OutcomeEnv)
    (ctx : WalletContext) (s : UIState) (e : Event) :
    uiStep c env1 ctx s e = uiStep c env2 ctx s e := by
  cases e with
  | clickTrigger t => rfl
  | clickConnect => rfl
  | menuClose => rfl
  | menuItemClick i =>
      simp only [uiStep]
      by_cases h : openFlag s <;> simp [h]
      rcases hIdx : (operations s.copied)[i]? with _ | op <;> simp [hIdx]
      exact runAction_env_blind c env1 env2 ctx s op.action

/-! ### Theorems -/

/-- C10: PAGE_MIN_HEIGHT holds the mobile full-screen height string in
both of its two positions, and the desktop FULL_SCREEN_HEIGHT value
never appears in it. -/
theorem C10_page_min_height :
    PAGE_MIN_HEIGHT = [MOBILE_FULL_SCREEN_HEIGHT, MOBILE_FULL_SCREEN_HEIGHT] ∧
    PAGE_MIN_HEIGHT[0]? = some MOBILE_FULL_SCREEN_HEIGHT ∧
    PAGE_MIN_HEIGHT[1]? = some MOBILE_FULL_SCREEN_HEIGHT ∧
    PAGE_MIN_HEIGHT.contains FULL_SCREEN_HEIGHT = false := by
  refine ⟨rfl, rfl, rfl, ?_⟩
  decide

/-- C4: the menu lists exactly three actions whose labels, order and
attached handlers are the same literals for every copied flag, and the
rendered Menu's items are that list for every theme, props, wallet
context and UI state. -/
theorem C4_static_actions :
    ∀ copiedFlag : Bool,
      (operations copiedFlag).map Operation.label
        = ["Block explorer", "Copy address", "Disconnect"] ∧
      (operations copiedFlag).map Operation.action
        = [ActionId.viewScanAct, ActionId.copyAddressAct, ActionId.disconnectAct] ∧
      (operations copiedFlag).length = 3 ∧
      ∀ (theme : Theme) (p : Props) (ctx : WalletContext) (s : UIState),
        (render theme p ctx s).menus.map
            (fun m => m.items.map Operation.label)
          = [["Block explorer", "Copy address", "Disconnect"]] := by
  intro b
  refine ⟨by cases b <;> rfl, by cases b <;> rfl, by cases b <;> rfl, ?_⟩
  intro theme p ctx s
  simp [render, operations]

/-- C1 counterexample: with the menu open (anchor element 7), running
the Copy address action leaves the anchor element set, so the claim
that every one of the three actions closes the menu is false on the
code. -/
theorem C1_counterexample :
    ((runAction ⟨1, "l1", "l2"⟩ trueEnv ⟨some "0xabc", some 1⟩
        ⟨some 7, false⟩ ActionId.copyAddressAct).1.anchorEl).isSome = true := by
  rfl

/-- C1 amended: only the Disconnect action closes the menu (resets the
anchor element to null); the Block explorer and Copy address handlers
leave the anchor element exactly as it was, so the menu stays open. -/
theorem C1_menu_close_behavior :
    ∀ (c : Consts) (env : OutcomeEnv) (ctx : WalletContext) (s : UIState),
      (runAction c env ctx s ActionId.disconnectAct).1.anchorEl = none ∧
      (runAction c env ctx s ActionId.viewScanAct).1.anchorEl = s.anchorEl ∧
      (runAction c env ctx s ActionId.copyAddressAct).1.anchorEl = s.anchorEl := by
  intro c env ctx s
  exact ⟨rfl, rfl, rfl⟩

/-- C8: the Block explorer action emits exactly one window.open whose
link uses the L1 explorer URL precisely when chainId strictly equals
CHAIN_ID.L1 and the L2 explorer URL for every other chainId value,
always passing the current wallet address and the kind "address". -/
theorem C8_explorer_link :
    ∀ (c : Consts) (env : OutcomeEnv) (ctx : WalletContext) (s : UIState),
      (viewScan c env ctx s).2 = [Effect.windowOpen (viewScanLink c ctx)] ∧
      (viewScanLink c ctx).addr = ctx.walletCurrentAddress ∧
      (viewScanLink c ctx).kind = "address" ∧
      (ctx.chainId = some c.chainIdL1 → (viewScanLink c ctx).baseUrl = c.explorerL1) ∧
      (ctx.chainId ≠ some c.chainIdL1 → (viewScanLink c ctx).baseUrl = c.explorerL2) := by
  intro c env ctx s
  refine ⟨rfl, rfl, rfl, ?_, ?_⟩
  · intro h
    simp [viewScanLink, generateExploreLink, h]
  · intro h
    simp [viewScanLink, generateExploreLink, h]

/-- C8 witness: on a context whose chainId is the L1 chain the link uses
the L1 URL, and on another chain it uses the L2 URL. -/
theorem C8_explorer_link_witness :
    (viewScanLink ⟨1, "scrollL1", "scrollL2"⟩ ⟨some "0xabc", some 1⟩).baseUrl = "scrollL1" ∧
    (viewScanLink ⟨1, "scrollL1", "scrollL2"⟩ ⟨some "0xabc", some 534351⟩).baseUrl = "scrollL2" :=
  ⟨(C8_explorer_link ⟨1, "scrollL1", "scrollL2"⟩ trueEnv ⟨some "0xabc", some 1⟩
      initialUI).2.2.2.1 rfl,
   (C8_explorer_link ⟨1, "scrollL1", "scrollL2"⟩ trueEnv ⟨some "0xabc", some 534351⟩
      initialUI).2.2.2.2 (by decide)⟩

/-- C2: in every reachable UI state a closed menu implies the copied
flag is false; Copy address sets the flag; and once set, any event
either keeps it set or closes the menu and resets it in the same step. -/
theorem C2_copied_invariant :
    (∀ s : UIState, ReachableUI s → s.anchorEl = none → s.copied = false) ∧
    (∀ (env : OutcomeEnv) (ctx : WalletContext) (s : UIState),
        (copyAddress env ctx s).1.copied = true) ∧
    (∀ (c : Consts) (env : OutcomeEnv) (ctx : WalletContext) (s : UIState) (e : Event),
        s.copied = true →
        (uiStep c env ctx s e).1.copied = true ∨
          ((uiStep c env ctx s e).1.anchorEl = none ∧
            (uiStep c env ctx s e).1.copied = false)) := by
  refine ⟨?_, ?_, ?_⟩
  · intro s hs
    induction hs with
    | init => intro _; rfl
    | step c env ctx s e _ ih => exact uiStep_closed_copied c env ctx s e ih
  · intro env ctx s
    rfl
  · intro c env ctx s e hc
    cases e with
    | clickTrigger t =>
        simp only [uiStep]
        by_cases h : jsTruthy ctx.chainId <;> simp [h, handleClick, hc]
    | clickConnect =>
        simp only [uiStep]
        by_cases h : jsTruthy ctx.chainId <;> simp [h, hc]
    | menuClose =>
        simp only [uiStep]
        by_cases h : openFlag s <;> simp [h, handleClose, hc]
    | menuItemClick i =>
        simp only [uiStep]
        by_cases h : openFlag s <;> simp only [h, if_true, if_false, Bool.false_eq_true,
          reduceIte]
        · rcases hIdx : (operations s.copied)[i]? with _ | op
          · simp [hIdx, hc]
          · simp only [hIdx]
            rcases op with ⟨ic, lb, a⟩
            cases a with
            | viewScanAct => simp [runAction, viewScan, hc]
            | copyAddressAct => simp [runAction, copyAddress]
            | disconnectAct => simp [runAction, handleClose]
        · simp [hc]

/-- C2 witness: the initial state is closed with the flag unset, Copy
address sets the flag in a concrete open state, and closing the menu
from a concrete copied state lands in the reset branch. -/
theorem C2_copied_invariant_witness :
    initialUI.copied = false ∧
    (copyAddress trueEnv ⟨some "0xabc", some 1⟩ ⟨some 7, false⟩).1.copied = true ∧
    ((uiStep ⟨1, "l1", "l2"⟩ trueEnv ⟨some "0xabc", some 1⟩ ⟨some 7, true⟩
        Event.menuClose).1.copied = true ∨
      ((uiStep ⟨1, "l1", "l2"⟩ trueEnv ⟨some "0xabc", some 1⟩ ⟨some 7, true⟩
          Event.menuClose).1.anchorEl = none ∧
        (uiStep ⟨1, "l1", "l2"⟩ trueEnv ⟨some "0xabc", some 1⟩ ⟨some 7, true⟩
          Event.menuClose).1.copied = false)) :=
  ⟨C2_copied_invariant.1 initialUI ReachableUI.init rfl,
   C2_copied_invariant.2.1 trueEnv ⟨some "0xabc", some 1⟩ ⟨some 7, false⟩,
   C2_copied_invariant.2.2 ⟨1, "l1", "l2"⟩ trueEnv ⟨some "0xabc", some 1⟩
     ⟨some 7, true⟩ Event.menuClose rfl⟩

/-- C3: clicking the trigger from the closed state makes the open flag
true and the resulting render has exactly one open menu; every render
has exactly one Menu element; and in every state the open flag is true
iff the anchor element is non-null. -/
theorem C3_trigger_opens_one_menu :
    (∀ (s : UIState) (t : Nat), s.anchorEl = none → openFlag (handleClick s t) = true) ∧
    (∀ (theme : Theme) (p : Props) (ctx : WalletContext) (s : UIState) (t : Nat),
        s.anchorEl = none →
        ((render theme p ctx (handleClick s t)).menus.filter
            (fun m => m.isOpen)).length = 1) ∧
    (∀ (theme : Theme) (p : Props) (ctx : WalletContext) (s : UIState),
        (render theme p ctx s).menus.length = 1) ∧
    (∀ s : UIState, openFlag s = true ↔ s.anchorEl ≠ none) := by
  refine ⟨?_, ?_, ?_, ?_⟩
  · intro s t _
    rfl
  · intro theme p ctx s t _
    simp [render, handleClick, openFlag]
  · intro theme p ctx s
    rfl
  · intro s
    simp [openFlag, Option.isSome_iff_ne_none]

/-- C3 witness: from the initial closed state, clicking the trigger
element 5 turns the open flag on and the render has one open menu. -/
theorem C3_trigger_opens_one_menu_witness :
    openFlag (handleClick initialUI 5) = true ∧
    ((render ⟨"#fff", "#eee", "#111"⟩ ⟨"", false⟩ ⟨some "0xabc", some 1⟩
        (handleClick initialUI 5)).menus.filter (fun m => m.isOpen)).length = 1 :=
  ⟨C3_trigger_opens_one_menu.1 initialUI 5 rfl,
   C3_trigger_opens_one_menu.2.1 ⟨"#fff", "#eee", "#111"⟩ ⟨"", false⟩
     ⟨some "0xabc", some 1⟩ initialUI 5 rfl⟩

/-- C5: a component step never writes the wallet context; the emitted
effect list is empty or a single window.open, clipboard copy, connect or
disconnect call; and every emitted effect that writes the wallet session
is a call to the collaborator's connect or disconnect. -/
theorem C5_wallet_frame :
    ∀ (c : Consts) (env : OutcomeEnv) (w : World) (e : Event),
      (worldStep c env w e).1.ctx = w.ctx ∧
      ((worldStep c env w e).2 = [] ∨
        (worldStep c env w e).2 = [Effect.windowOpen (viewScanLink c w.ctx)] ∨
        (worldStep c env w e).2
          = [Effect.copyToClipboard w.ctx.walletCurrentAddress] ∨
        (worldStep c env w e).2 = [Effect.callConnect] ∨
        (worldStep c env w e).2 = [Effect.callDisconnect]) ∧
      (∀ eff ∈ (worldStep c env w e).2, writesWallet eff = true →
        eff = Effect.callConnect ∨ eff = Effect.callDisconnect) := by
  intro c env w e
  refine ⟨rfl, ?_, ?_⟩
  · cases e with
    | clickTrigger t =>
        simp only [worldStep, uiStep]
        by_cases h : jsTruthy w.ctx.chainId <;> simp [h]
    | clickConnect =>
        simp only [worldStep, uiStep]
        by_cases h : jsTruthy w.ctx.chainId <;> simp [h]
    | menuClose =>
        simp only [worldStep, uiStep]
        by_cases h : openFlag w.ui <;> simp [h]
    | menuItemClick i =>
        simp only [worldStep, uiStep]
        by_cases h : openFlag w.ui <;> simp [h]
        rcases hIdx : (operations w.ui.copied)[i]? with _ | op <;> simp [hIdx]
        rcases op with ⟨ic, lb, a⟩
        cases a with
        | viewScanAct => simp [runAction, viewScan]
        | copyAddressAct => simp [runAction, copyAddress]
        | disconnectAct => simp [runAction]
  · intro eff _ hw
    cases eff with
    | windowOpen l => simp [writesWallet] at hw
    | copyToClipboard a => simp [writesWallet] at hw
    | callConnect => exact Or.inl rfl
    | callDisconnect => exact Or.inr rfl

/-- C5 witness: clicking Connect Wallet on a disconnected context keeps
the wallet context unchanged and the single emitted wallet-writing
effect is the connect call. -/
theorem C5_wallet_frame_witness :
    (worldStep ⟨1, "l1", "l2"⟩ trueEnv ⟨⟨none, none⟩, initialUI⟩
        Event.clickConnect).1.ctx = (⟨none, none⟩ : WalletContext) ∧
    (Effect.callConnect = Effect.callConnect ∨
      Effect.callConnect = Effect.callDisconnect) :=
  ⟨(C5_wallet_frame ⟨1, "l1", "l2"⟩ trueEnv ⟨⟨none, none⟩, initialUI⟩
      Event.clickConnect).1,
   (C5_wallet_frame ⟨1, "l1", "l2"⟩ trueEnv ⟨⟨none, none⟩, initialUI⟩
      Event.clickConnect).2.2 Effect.callConnect (by simp [worldStep, uiStep, jsTruthy])
     rfl⟩

/-- C6: no handler branches on the outcome of a delegated external call:
for any two outcome oracles, every action handler and every event step
produce the same state and the same effects, so no error kind is
distinguished or surfaced. -/
theorem C6_outcome_blind :
    ∀ (c : Consts) (env1 env2 : OutcomeEnv) (ctx : WalletContext) (s : UIState),
      (∀ a : ActionId, runAction c env1 ctx s a = runAction c env2 ctx s a) ∧
      (∀ e : Event, uiStep c env1 ctx s e = uiStep c env2 ctx s e) := by
  intro c env1 env2 ctx s
  exact ⟨runAction_env_blind c env1 env2 ctx s, uiStep_env_blind c env1 env2 ctx s⟩

/-- C7: the sx and dark props are purely presentational: two renders
differing only in the props have the same menu (same items, labels and
handlers) and the same trigger content, and the component's step
function is identical across props. -/
theorem C7_props_presentational :
    ∀ (theme : Theme) (p1 p2 : Props) (ctx : WalletContext) (s : UIState),
      (render theme p1 ctx s).menus = (render theme p2 ctx s).menus ∧
      triggerContent (render theme p1 ctx s).trigger
        = triggerContent (render theme p2 ctx s).trigger ∧
      ∀ (c : Consts) (env : OutcomeEnv) (e : Event),
        componentStep theme p1 c env ctx s e = componentStep theme p2 c env ctx s e := by
  intro theme p1 p2 ctx s
  refine ⟨rfl, ?_, fun c env e => rfl⟩
  by_cases h : jsTruthy ctx.chainId <;> simp [render, triggerContent, h]

/-- C9: the rendered trigger is decided solely by the truthiness of
chainId: truthy renders the address button (even when the address is
null), falsy renders the Connect Wallet button, whose click calls the
collaborator's connect. -/
theorem C9_trigger_choice :
    ∀ (theme : Theme) (p : Props) (c : Consts) (env : OutcomeEnv)
      (ctx : WalletContext) (s : UIState),
      (jsTruthy ctx.chainId = true →
        (render theme p ctx s).trigger
          = TriggerNode.addressButton ctx.walletCurrentAddress p.sx
              (useStyles theme p.dark) (openFlag s)) ∧
      (jsTruthy ctx.chainId = false →
        (render theme p ctx s).trigger = TriggerNode.connectButton "Connect Wallet" ∧
        uiStep c env ctx s Event.clickConnect = (s, [Effect.callConnect])) := by
  intro theme p c env ctx s
  constructor
  · intro h
    simp [render, h]
  · intro h
    refine ⟨by simp [render, h], by simp [uiStep, h]⟩

/-- C9 witness: with a truthy chainId and a null address the address
button is rendered anyway; with an undefined chainId the Connect Wallet
button is rendered. -/
theorem C9_trigger_choice_witness :
    (render ⟨"#fff", "#eee", "#111"⟩ ⟨"", true⟩ ⟨none, some 534351⟩ initialUI).trigger
      = TriggerNode.addressButton none ""
          (useStyles ⟨"#fff", "#eee", "#111"⟩ true) (openFlag initialUI) ∧
    (render ⟨"#fff", "#eee", "#111"⟩ ⟨"", true⟩ ⟨none, none⟩ initialUI).trigger
      = TriggerNode.connectButton "Connect Wallet" :=
  ⟨(C9_trigger_choice ⟨"#fff", "#eee", "#111"⟩ ⟨"", true⟩ ⟨1, "l1", "l2"⟩ trueEnv
      ⟨none, some 534351⟩ initialUI).1 rfl,
   ((C9_trigger_choice ⟨"#fff", "#eee", "#111"⟩ ⟨"", true⟩ ⟨1, "l1", "l2"⟩ trueEnv
      ⟨none, none⟩ initialUI).2 rfl).1⟩

end LevelupWeb3
